import Mathlib

/-!
Shallow embedding of `src/scripts/render.py` (versaliminal/publishing-tools).

The script is a sequential pipeline: load a per-project config from
`projects.yaml`, optionally refresh CSV tables from Google Sheets, render
each table row through a jinja template into a LaTeX fragment plus an
`includes.tex` manifest, run pdflatex, and touch a `.lastrun` marker.

File-system state is modelled explicitly (a list of directories and an
association list of file contents); the network is a parameter mapping a
URL to either downloaded content or an error; Python exceptions become an
explicit `Option PyExc` result channel.  Python's `str.format` is embedded
as `pyFormat`, faithful to named-field substitution, `\x7b\x7b`/`\x7d\x7d`
escapes, and the `KeyError` raised for a field with no binding — the
script's directory-creation code hits exactly that error.
-/

namespace Render

/-- Python exceptions that the script can raise or catch. -/
inductive PyExc where
  | fileExistsError : PyExc
  | keyError : String → PyExc
  | valueError : PyExc
  deriving DecidableEq, Repr

/-- A Python value as it can reach `jinja_to_latex_arg` from a template:
`None`, a string, an `int`, a `float` (the script only ever meets
integral-valued floats, so the payload is the integer it equals), or a
`list`/`dict` produced by the yaml parsing of a tagged column. -/
inductive PyVal where
  | none : PyVal
  | str : String → PyVal
  | int : Int → PyVal
  | float : Int → PyVal
  | list : List PyVal → PyVal
  | dict : List (String × PyVal) → PyVal
  deriving Repr

/-- Python truthiness for the values above: `None`, `""`, `0`, `0.0`, `[]`
and `{}` are falsy, everything else truthy. -/
def pyTruthy : PyVal → Bool
  | .none => false
  | .str s => s ≠ ""
  | .int n => n ≠ 0
  | .float n => n ≠ 0
  | .list l => !l.isEmpty
  | .dict d => !d.isEmpty

/-- Embeds `jinja_to_latex_arg(content)`: if `content` is truthy, an `int` or
`float` is converted with `str`, and a string is returned wrapped in
braces; every other case (falsy, or truthy but not str/int/float) falls
through to `return '\x7b\x7d'`. -/
def jinja_to_latex_arg (content : PyVal) : String :=
  if pyTruthy content then
    match content with
    | .int n => "\x7b" ++ toString n ++ "\x7d"
    | .float n => "\x7b" ++ (toString n ++ ".0") ++ "\x7d"
    | .str s => "\x7b" ++ s ++ "\x7d"
    | _ => "\x7b\x7d"
  else "\x7b\x7d"

/-- Embeds `jinja_to_latex_args(*args)`: `"".join(map(jinja_to_latex_arg, args))`. -/
def jinja_to_latex_args (args : List PyVal) : String :=
  String.join (args.map jinja_to_latex_arg)

/-! ### Python `str.format`

A one-pass machine over the format string's characters.  The first
argument of `pyFmt` is the keyword-argument dictionary; the `Option`
argument is `some f` while scanning a replacement field whose name so far
(reversed) is `f`.  `\x7b\x7b` and `\x7d\x7d` escape literal braces; a
field name with no keyword binding raises `KeyError` (positional
arguments, which the script never references from a field, are therefore
not modelled); a stray brace raises `ValueError`. -/
def pyFmt (args : List (String × String)) :
    Option (List Char) → List Char → Except PyExc String
  | none, [] => .ok ""
  | none, '\x7b' :: '\x7b' :: rest => (pyFmt args none rest).map (fun t => "\x7b" ++ t)
  | none, '\x7d' :: '\x7d' :: rest => (pyFmt args none rest).map (fun t => "\x7d" ++ t)
  | none, '\x7b' :: rest => pyFmt args (some []) rest
  | none, '\x7d' :: _ => .error .valueError
  | none, c :: rest => (pyFmt args none rest).map (fun t => String.mk [c] ++ t)
  | some _, [] => .error .valueError
  | some f, '\x7d' :: rest =>
      match args.lookup (String.mk f.reverse) with
      | some v => (pyFmt args none rest).map (fun t => v ++ t)
      | Option.none => .error (.keyError (String.mk f.reverse))
  | some f, c :: rest => pyFmt args (some (c :: f)) rest

/-- Python `fmt.format(**args)` with keyword arguments. -/
def pyFormat (fmt : String) (args : List (String × String)) : Except PyExc String :=
  pyFmt args none fmt.data

/-! ### The script's module-level format strings (braces written `\x7b`/`\x7d`). -/

def GSHEETS_URL_FMT : String := "\x7burl\x7d/gviz/tq?tqx=out:csv&sheet=\x7bsheet\x7d"

def TABLE_PATH_FMT : String := "\x7bproject_dir\x7d/tables/\x7btable\x7d"

def RENDERED_PATH_FMT : String := "\x7bproject_dir\x7d/rendered/\x7boutput\x7d"

def INCLUDES_FILE : String := "includes.tex"

def INCLUDE_FMT : String := "\\input\x7b\x7brendered/\x7boutput\x7d\x7d\x7d \\clearpage\n"

def YAML_TAG : String := "(yaml)"

/-! ### Association lists (Python `dict` views)

`csv.DictReader` rows, `yaml.safe_load` mappings and the script's
`parsed_cols` dict are insertion-ordered string-keyed dictionaries;
we model them as association lists with Python's update semantics. -/

/-- Ordered-dict lookup (`d[k]` when present / `k in d`). -/
def alookup {α : Type} : List (String × α) → String → Option α
  | [], _ => Option.none
  | (k, v) :: rest, key => if k = key then some v else alookup rest key

/-- Python `d[k] = v`: update in place if the key is present (keeping its
position), otherwise append at the end. -/
def dictInsert {α : Type} (d : List (String × α)) (k : String) (v : α) :
    List (String × α) :=
  if (alookup d k).isSome then
    d.map (fun kv => if kv.1 = k then (k, v) else kv)
  else d ++ [(k, v)]

/-! ### File-system state

Directories and file contents, explicit.  `os.mkdir` raises
`FileExistsError` on an existing path; writing a file overwrites. -/

structure FS where
  dirs : List String
  files : List (String × String)
  deriving Repr

/-- Python `os.mkdir(p)`. -/
def mkdir (fs : FS) (p : String) : Except PyExc FS :=
  if p ∈ fs.dirs then .error .fileExistsError
  else .ok { fs with dirs := p :: fs.dirs }

/-- Overwriting file write (`urlretrieve` target / `open(..., 'w')`). -/
def writeFile (fs : FS) (path content : String) : FS :=
  { fs with files := dictInsert fs.files path content }

/-! ### Project configuration -/

/-- One entry of `config['mappings']`. -/
structure Mapping where
  sheet : String
  table : String
  deriving Repr

/-- A project's record in `projects.yaml`.  `gsheets_url = ""` models an
unset/empty remote (Python falsiness of `config['gsheets_url']`). -/
structure Config where
  gsheets_url : String
  mappings : List Mapping
  deriving Repr

/-- Embeds `read_conifg` [sic, the script's spelling]: after loading the shared
`projects.yaml` document (modelled as the already-parsed association
list), returns `config[project]` when `project in config`; otherwise
control falls off the end of the function, Python's implicit
`return None`.  No exception is raised on a missing project key. -/
def read_conifg (config : List (String × Config)) (project : String) : Option Config :=
  if (alookup config project).isSome then alookup config project else Option.none

/-! ### `refresh_sources` -/

/-- Lines 43–47 of `refresh_sources`: the `try` block running
`os.mkdir(project_dir)` then `os.mkdir(TABLE_PATH_FMT.format(""))`, with
`except FileExistsError: pass`.  The `format("")` call passes one
positional argument to a format string whose fields are the keywords
`project_dir` and `table`, so it raises `KeyError('project_dir')`, which
the `except FileExistsError` clause does not catch.  Returns the file
system after whatever executed, plus the uncaught exception if any. -/
def refresh_dirs (fs : FS) (project_dir : String) : FS × Option PyExc :=
  match mkdir fs project_dir with
  | .error .fileExistsError => (fs, Option.none)
  | .error e => (fs, some e)
  | .ok fs1 =>
      match pyFormat TABLE_PATH_FMT [] with
      | .error .fileExistsError => (fs1, Option.none)
      | .error e => (fs1, some e)
      | .ok p =>
          match mkdir fs1 p with
          | .error .fileExistsError => (fs1, Option.none)
          | .error e => (fs1, some e)
          | .ok fs2 => (fs2, Option.none)

/-- Lines 51–58 of `refresh_sources`: the per-mapping download loop.
`net` maps a URL to downloaded content or a failure.  Returns the final
file system, the uncaught exception if any, and the list of URLs
requested, in order.  The `try`/`except Exception` around `urlretrieve`
catches any download failure, logs it, and continues with the next
mapping. -/
def download_loop (net : String → Except String String)
    (project_dir gsheets_url : String) :
    FS → List Mapping → FS × Option PyExc × List String
  | fs, [] => (fs, Option.none, [])
  | fs, entry :: rest =>
    match pyFormat GSHEETS_URL_FMT [("url", gsheets_url), ("sheet", entry.sheet)] with
    | .error e => (fs, some e, [])
    | .ok url =>
      match pyFormat TABLE_PATH_FMT
          [("project_dir", project_dir), ("table", entry.table)] with
      | .error e => (fs, some e, [])
      | .ok output =>
        match net url with
        | .ok content =>
          let r := download_loop net project_dir gsheets_url
            (writeFile fs output content) rest
          (r.1, r.2.1, url :: r.2.2)
        | .error _ =>
          let r := download_loop net project_dir gsheets_url fs rest
          (r.1, r.2.1, url :: r.2.2)

/-- Embeds `refresh_sources(project_dir, config)`: the directory `try` block,
then the `if not config['gsheets_url']` early return, then the download
loop.  Result: final file system, uncaught exception if any, URLs
requested. -/
def refresh_sources (fs : FS) (project_dir : String) (config : Config)
    (net : String → Except String String) : FS × Option PyExc × List String :=
  match refresh_dirs fs project_dir with
  | (fs1, some e) => (fs1, some e, [])
  | (fs1, Option.none) =>
    if config.gsheets_url = "" then (fs1, Option.none, [])
    else download_loop net project_dir config.gsheets_url fs1 config.mappings

/-! ### Row rendering -/

/-- A scalar yaml value: integer-looking text loads as an int, anything
else as the string itself. -/
inductive YamlScalar where
  | str : String → YamlScalar
  | int : Int → YamlScalar
  deriving DecidableEq, Repr

/-- A structured value produced by yaml parsing of a tagged column:
a scalar, or a mapping from keys to scalars (the shapes the script's
single-line tagged cells produce). -/
inductive Yaml where
  | scalar : YamlScalar → Yaml
  | map : List (String × YamlScalar) → Yaml
  deriving DecidableEq, Repr

/-- Python whitespace for `str.strip()` (the characters that can occur
here). -/
def isPySpace (c : Char) : Bool :=
  c = ' ' || c = '\t' || c = '\n' || c = '\r'

/-- Python `str.strip()`: drop leading and trailing whitespace. -/
def trimChars (cs : List Char) : List Char :=
  ((cs.dropWhile isPySpace).reverse.dropWhile isPySpace).reverse

/-- Python `str.strip()` on strings. -/
def pyStrip (s : String) : String := String.mk (trimChars s.data)

/-- Python `str.replace(old, new)`: replace non-overlapping occurrences left to
right.  The fuel is the input length, which suffices because each step
consumes at least one character (the script's pattern `(yaml)` is
nonempty). -/
def replaceFuel (old new : List Char) : Nat → List Char → List Char
  | 0, s => s
  | _ + 1, [] => []
  | fuel + 1, c :: rest =>
    if old.isPrefixOf (c :: rest) ∧ old ≠ [] then
      new ++ replaceFuel old new fuel ((c :: rest).drop old.length)
    else c :: replaceFuel old new fuel rest

/-- Python `s.replace(old, new)` on strings. -/
def pyReplace (s old new : String) : String :=
  String.mk (replaceFuel old.data new.data s.data.length s.data)

/-- Python `s.endswith(suffix)`. -/
def pyEndsWith (s suffix : String) : Bool :=
  suffix.data.isSuffixOf s.data

/-- An optional decimal-integer reading of a character list (the yaml
scalar rule: digit-only text is an int). -/
def parseNatChars (cs : List Char) : Option Nat :=
  if cs.isEmpty then Option.none
  else if cs.all (fun c => decide ('0' ≤ c) && decide (c ≤ '9')) then
    some (cs.foldl (fun a c => 10 * a + (c.toNat - '0'.toNat)) 0)
  else Option.none

/-- Signed decimal-integer reading. -/
def parseIntChars : List Char → Option Int
  | '-' :: rest => (parseNatChars rest).map (fun n => -(n : Int))
  | cs => (parseNatChars cs).map (fun n => (n : Int))

/-- Modelled from the spec: the external `yaml.safe_load` on a scalar —
integer-looking text loads as an int, anything else as the string. -/
def yamlScalar (s : String) : YamlScalar :=
  match parseIntChars s.data with
  | some n => .int n
  | Option.none => .str s

/-- Split a character list at the first occurrence of `pat`, if any. -/
def splitAtPat (pat : List Char) : List Char → Option (List Char × List Char)
  | [] => Option.none
  | c :: rest =>
    if pat.isPrefixOf (c :: rest) then some ([], (c :: rest).drop pat.length)
    else (splitAtPat pat rest).map (fun p => (c :: p.1, p.2))

/-- Modelled from the spec: the external `yaml.safe_load` restricted to
the shapes the script's tagged columns carry — a plain scalar, or a
single-line `key: value` mapping such as `a: 1`. -/
def yaml_safe_load (s : String) : Yaml :=
  match splitAtPat [':', ' '] s.data with
  | some (k, v) =>
      .map [(pyStrip (String.mk k), yamlScalar (pyStrip (String.mk v)))]
  | Option.none => .scalar (yamlScalar (pyStrip s))

/-- One `csv.DictReader` row: an insertion-ordered dict from header name
to cell string. -/
abbrev Row := List (String × String)

/-- Embeds `k.replace(YAML_TAG, '').strip()`. -/
def stripYamlName (k : String) : String :=
  pyStrip (pyReplace k YAML_TAG "")

/-- One iteration of the `for k, v in row.items()` loop that builds
`parsed_cols`: `if not v: continue`; then if the header ends with
`(yaml)`, insert the stripped name mapped to the yaml-parsed value. -/
def parsedStep (acc : List (String × Yaml)) (kv : String × String) :
    List (String × Yaml) :=
  if kv.2 = "" then acc
  else if pyEndsWith kv.1 YAML_TAG then
    dictInsert acc (stripYamlName kv.1) (yaml_safe_load kv.2)
  else acc

/-- The `parsed_cols` dict built for one row (lines 125–131). -/
def parsed_cols (row : Row) : List (String × Yaml) :=
  row.foldl parsedStep []

/-- The two named variables handed to `template.render(raw=row,
parsed=parsed_cols)`: `raw` is the row dict itself — unfiltered — and
`parsed` is `parsed_cols row`. -/
def render_vars (row : Row) : Row × List (String × Yaml) :=
  (row, parsed_cols row)

/-- The row loop of `render_template` (lines 118–132) over the parsed
data rows of one table.  `tmpl` stands for the external jinja template:
a function of the `(raw, parsed)` variables.  For each row the fragment
name is `"\x7b0\x7d-\x7b1\x7d.tex".format(row['Number'], row['Name'])`;
the include line is appended to the manifest before the fragment is
written.  Returns the fragment files written (name and content, in
order), the manifest text appended, and — since `row['Number']` /
`row['Name']` on a missing column raises — the uncaught exception if
any, with the files and manifest text produced before the raise. -/
def render_rows (tmpl : Row × List (String × Yaml) → String) :
    List Row → List (String × String) × String × Option PyExc
  | [] => ([], "", Option.none)
  | row :: rest =>
    match alookup row "Number" with
    | Option.none => ([], "", some (.keyError "Number"))
    | some num =>
      match alookup row "Name" with
      | Option.none => ([], "", some (.keyError "Name"))
      | some name =>
        let fname := num ++ "-" ++ name ++ ".tex"
        match pyFormat INCLUDE_FMT [("output", fname)] with
        | .error e => ([], "", some e)
        | .ok inc =>
          let r := render_rows tmpl rest
          ((fname, tmpl (render_vars row)) :: r.1, inc ++ r.2.1, r.2.2)

/-! ### The staleness check and the force flag -/

/-- Python's `max` over the mtimes collected by
`(os.path.getmtime(root) for root,_,_ in os.walk(dir))`; mtimes are
modelled as naturals, and the walk of an existing tree is nonempty (it
yields at least the root), so the `0` default is never the deciding
value in the script's use. -/
def walkMax (mtimes : List Nat) : Nat := mtimes.foldl max 0

set_option linter.unusedVariables false in
/-- Lines 90–98 of `render_templates`: the staleness check.  The code
takes `max` of the tables-walk mtimes twice — the second operand walks
`tables_dir` again, not `templates_dir` — and skips rendering when
`last_run > mtime`.  The two arguments are the mtime lists observed by
walking the tables tree and the templates tree. -/
def render_templates_skips (last_run : Nat)
    (tablesWalk templatesWalk : List Nat) : Bool :=
  last_run > max (walkMax tablesWalk) (walkMax tablesWalk)

/-- The staleness check as the specification words it: compare the
last-run marker against the most recent modification time across both
the tables inputs and the templates inputs. -/
def spec_render_skips (last_run : Nat)
    (tablesWalk templatesWalk : List Nat) : Bool :=
  last_run > max (walkMax tablesWalk) (walkMax templatesWalk)

/-- Lines 196–199 of `main`: the effective `last_run` value passed to
`render_templates` — `0.0` when `--force` is set, otherwise the marker's
mtime. -/
def main_last_run (force : Bool) (marker : Nat) : Nat :=
  if force then 0 else marker

/-! ## Helper lemmas -/

instance : Std.Associative (α := String) (· ++ ·) := ⟨String.append_assoc⟩

theorem join_cons (s : String) (l : List String) :
    String.join (s :: l) = s ++ String.join l := by
  simp only [String.join, List.foldl_cons]
  rw [show ("" ++ s) = (s ++ "") from by simp, List.foldl_assoc]

theorem alookup_eq_none {α : Type} (d : List (String × α)) (key : String)
    (h : key ∉ d.map Prod.fst) : alookup d key = Option.none := by
  induction d with
  | nil => rfl
  | cons kv rest ih =>
    simp only [List.map_cons, List.mem_cons, not_or] at h
    have : kv.1 ≠ key := fun he => h.1 he.symm
    simp [alookup, this, ih h.2]

theorem alookup_of_nodup_mem {α : Type} (d : List (String × α)) (k : String)
    (v : α) (hnodup : (d.map Prod.fst).Nodup) (hmem : (k, v) ∈ d) :
    alookup d k = some v := by
  induction d with
  | nil => cases hmem
  | cons kv rest ih =>
    simp only [List.map_cons, List.nodup_cons] at hnodup
    rcases List.mem_cons.mp hmem with h | h
    · subst h; simp [alookup]
    · have hk : kv.1 ≠ k := by
        intro he
        exact hnodup.1 (he ▸ (List.mem_map.mpr ⟨(k, v), h, rfl⟩))
      simp [alookup, hk, ih hnodup.2 h]

theorem alookup_append_left {α : Type} (d₁ d₂ : List (String × α))
    (key : String) (v : α) (h : alookup d₁ key = some v) :
    alookup (d₁ ++ d₂) key = some v := by
  induction d₁ with
  | nil => simp [alookup] at h
  | cons kv rest ih =>
    by_cases hk : kv.1 = key
    · simp only [alookup, if_pos hk] at h
      simp [alookup, hk, h]
    · simp only [alookup, if_neg hk] at h
      simp [alookup, hk, ih h]

theorem alookup_append_right {α : Type} (d₁ d₂ : List (String × α))
    (key : String) (h : alookup d₁ key = Option.none) :
    alookup (d₁ ++ d₂) key = alookup d₂ key := by
  induction d₁ with
  | nil => rfl
  | cons kv rest ih =>
    by_cases hk : kv.1 = key
    · simp [alookup, if_pos hk] at h
    · simp only [alookup, if_neg hk] at h
      simp [alookup, hk, ih h]

theorem alookup_mapUpdate_some {α : Type} (d : List (String × α))
    (k : String) (v : α) (h : (alookup d k).isSome) :
    alookup (d.map (fun kv => if kv.1 = k then (k, v) else kv)) k = some v := by
  induction d with
  | nil => simp [alookup] at h
  | cons kv rest ih =>
    simp only [List.map_cons]
    by_cases hk : kv.1 = k
    · rw [if_pos hk]
      simp [alookup]
    · rw [if_neg hk]
      simp only [alookup, if_neg hk] at h ⊢
      exact ih h

theorem alookup_mapUpdate_ne {α : Type} (d : List (String × α))
    (k key : String) (v : α) (hne : k ≠ key) :
    alookup (d.map (fun kv => if kv.1 = k then (k, v) else kv)) key
      = alookup d key := by
  induction d with
  | nil => rfl
  | cons kv rest ih =>
    simp only [List.map_cons]
    by_cases hk : kv.1 = k
    · rw [if_pos hk]
      have h1 : kv.1 ≠ key := hk ▸ hne
      simp only [alookup, if_neg hne, if_neg h1]
      exact ih
    · rw [if_neg hk]
      simp only [alookup]
      by_cases hkey : kv.1 = key
      · rw [if_pos hkey, if_pos hkey]
      · rw [if_neg hkey, if_neg hkey]
        exact ih

theorem alookup_dictInsert_self {α : Type} (d : List (String × α))
    (k : String) (v : α) : alookup (dictInsert d k v) k = some v := by
  unfold dictInsert
  by_cases h : (alookup d k).isSome
  · rw [if_pos h]
    exact alookup_mapUpdate_some d k v h
  · have hnone : alookup d k = Option.none := by
      cases he : alookup d k with
      | none => rfl
      | some w => simp [he] at h
    rw [if_neg h, alookup_append_right d [(k, v)] k hnone]
    simp [alookup]

theorem alookup_dictInsert_ne {α : Type} (d : List (String × α))
    (k key : String) (v : α) (hne : k ≠ key) :
    alookup (dictInsert d k v) key = alookup d key := by
  unfold dictInsert
  by_cases h : (alookup d k).isSome
  · rw [if_pos h]
    exact alookup_mapUpdate_ne d k key v hne
  · rw [if_neg h]
    cases he : alookup d key with
    | none =>
      rw [alookup_append_right d [(k, v)] key he]
      simp [alookup, fun hx : k = key => hne hx]
    | some w => exact alookup_append_left d [(k, v)] key w he

/-! ## Claims -/

/-- C1: the staleness check disagrees with the claimed contract.  With
the last-run marker at 5, the tables walk reporting mtime 0 and the
templates walk reporting mtime 10 (a template changed after the last
run), the code skips rendering, while the claimed check — skip iff the
marker is newer than the most recent mtime across tables and templates —
requires re-rendering; the force half of the claim does hold: with
`--force` the effective marker is 0 and rendering always proceeds. -/
theorem staleness_check_ignores_templates :
    render_templates_skips (main_last_run false 5) [0] [10] = true ∧
    spec_render_skips (main_last_run false 5) [0] [10] = false ∧
    (∀ (marker : Nat) (tablesWalk templatesWalk : List Nat),
      render_templates_skips (main_last_run true marker)
        tablesWalk templatesWalk = false) := by
  refine ⟨rfl, rfl, ?_⟩
  intro marker tablesWalk templatesWalk
  simp [render_templates_skips, main_last_run]

/-- C2: the directory phase of `refresh_sources` violates the claim in
both directions.  Starting from a file system without the project
directory `p`, `os.mkdir(p)` succeeds and then
`TABLE_PATH_FMT.format("")` raises `KeyError('project_dir')`, which the
`except FileExistsError` clause lets escape, so the call does not
succeed; and when `p` already exists, the `FileExistsError` aborts the
`try` block, so no tables subdirectory is ever created. -/
theorem refresh_dirs_key_error :
    refresh_dirs ⟨[], []⟩ "p" = (⟨["p"], []⟩, some (.keyError "project_dir")) ∧
    refresh_dirs ⟨["p"], []⟩ "p" = (⟨["p"], []⟩, Option.none) ∧
    (refresh_dirs ⟨["p"], []⟩ "p").1.dirs = ["p"] := by
  exact ⟨rfl, rfl, rfl⟩

/-- C5: `jinja_to_latex_arg` renders an absent (`None`) or empty value
as the empty braced fragment, wraps the int `42` and the string
`"hello"` each in a single braced fragment, and `jinja_to_latex_args`
concatenates, in argument order, `jinja_to_latex_arg` of each value. -/
theorem arg_and_args_formatting :
    jinja_to_latex_arg .none = "\x7b\x7d" ∧
    jinja_to_latex_arg (.str "") = "\x7b\x7d" ∧
    jinja_to_latex_arg (.int 42) = "\x7b42\x7d" ∧
    jinja_to_latex_arg (.str "hello") = "\x7bhello\x7d" ∧
    jinja_to_latex_args [] = "" ∧
    (∀ (v : PyVal) (vs : List PyVal),
      jinja_to_latex_args (v :: vs)
        = jinja_to_latex_arg v ++ jinja_to_latex_args vs) := by
  refine ⟨rfl, rfl, rfl, rfl, rfl, ?_⟩
  intro v vs
  simp only [jinja_to_latex_args, List.map_cons]
  exact join_cons _ _

/-- C9: the config loader, on the already-loaded shared document,
returns `None` without raising when the project key is absent, and
returns the project's configuration record when the key is present. -/
theorem read_conifg_miss_and_hit (config : List (String × Config))
    (project : String) :
    (project ∉ config.map Prod.fst → read_conifg config project = Option.none) ∧
    (∀ c : Config, alookup config project = some c →
      read_conifg config project = some c) := by
  constructor
  · intro h
    simp [read_conifg, alookup_eq_none config project h]
  · intro c h
    simp [read_conifg, h]

/-- C9 witness: a concrete miss returns `None` and a concrete hit
returns the stored record. -/
theorem read_conifg_miss_and_hit_witness :
    read_conifg [] "missing" = Option.none ∧
    read_conifg [("p", ⟨"", []⟩)] "p" = some ⟨"", []⟩ :=
  ⟨(read_conifg_miss_and_hit [] "missing").1 (by simp),
   (read_conifg_miss_and_hit [("p", ⟨"", []⟩)] "p").2 _ (by simp [alookup])⟩

/-- C10: `jinja_to_latex_arg` returns the empty braced fragment for the
falsy numbers `0` and `0.0`, and for every list and dict (in particular
every truthy non-str/int/float value); and for every input it totally
evaluates to either the empty braced fragment or a braced fragment,
never raising. -/
theorem arg_falsy_numbers_and_nonscalars :
    jinja_to_latex_arg (.int 0) = "\x7b\x7d" ∧
    jinja_to_latex_arg (.float 0) = "\x7b\x7d" ∧
    (∀ l : List PyVal, jinja_to_latex_arg (.list l) = "\x7b\x7d") ∧
    (∀ d : List (String × PyVal), jinja_to_latex_arg (.dict d) = "\x7b\x7d") ∧
    (∀ v : PyVal, jinja_to_latex_arg v = "\x7b\x7d" ∨
      ∃ s : String, jinja_to_latex_arg v = "\x7b" ++ s ++ "\x7d") := by
  refine ⟨rfl, rfl, ?_, ?_, ?_⟩
  · intro l
    simp [jinja_to_latex_arg]
  · intro d
    simp [jinja_to_latex_arg]
  · intro v
    cases v with
    | none => exact Or.inl rfl
    | str s =>
      by_cases h : s = ""
      · exact Or.inl (by simp [jinja_to_latex_arg, pyTruthy, h])
      · exact Or.inr ⟨s, by simp [jinja_to_latex_arg, pyTruthy, h]⟩
    | int n =>
      by_cases h : n = 0
      · exact Or.inl (by simp [jinja_to_latex_arg, pyTruthy, h])
      · exact Or.inr ⟨toString n, by simp [jinja_to_latex_arg, pyTruthy, h]⟩
    | float n =>
      by_cases h : n = 0
      · exact Or.inl (by simp [jinja_to_latex_arg, pyTruthy, h])
      · exact Or.inr ⟨toString n ++ ".0",
          by simp [jinja_to_latex_arg, pyTruthy, h]⟩
    | list l => exact Or.inl (by simp [jinja_to_latex_arg])
    | dict d => exact Or.inl (by simp [jinja_to_latex_arg])

/-- C6: rendering the table whose data rows are
`Number=1, Name=Alpha` and `Number=2, Name=Beta` — whatever the
template does — writes exactly the two fragment files `1-Alpha.tex`
and `2-Beta.tex`, in that order, raises nothing, and the manifest text
is exactly one include directive followed by a page-break directive per
row, in row order. -/
theorem render_two_rows (tmpl : Row × List (String × Yaml) → String) :
    ((render_rows tmpl
        [[("Number", "1"), ("Name", "Alpha")],
         [("Number", "2"), ("Name", "Beta")]]).1.map Prod.fst
      = ["1-Alpha.tex", "2-Beta.tex"]) ∧
    (render_rows tmpl
        [[("Number", "1"), ("Name", "Alpha")],
         [("Number", "2"), ("Name", "Beta")]]).2.1
      = "\\input\x7brendered/1-Alpha.tex\x7d \\clearpage\n" ++
        "\\input\x7brendered/2-Beta.tex\x7d \\clearpage\n" ∧
    (render_rows tmpl
        [[("Number", "1"), ("Name", "Alpha")],
         [("Number", "2"), ("Name", "Beta")]]).2.2 = Option.none :=
  ⟨rfl, rfl, rfl⟩

/-- C3 counterexample: the raw field set handed to the template is the
row dict itself, so a column whose value is the empty string is still
present in it — `raw['A']` is the empty string, not absent. -/
theorem raw_field_set_keeps_empty_value :
    alookup (render_vars [("A", "")]).1 "A" = some "" := rfl

theorem parsed_foldl_filter (row : Row) :
    ∀ acc : List (String × Yaml),
      row.foldl parsedStep acc
        = (row.filter (fun kv => kv.2 ≠ "")).foldl parsedStep acc := by
  induction row with
  | nil => intro _; rfl
  | cons kv rest ih =>
    intro acc
    by_cases h : kv.2 = ""
    · have hstep : parsedStep acc kv = acc := by simp [parsedStep, h]
      simp [List.filter_cons, h, hstep, ih]
    · simp [List.filter_cons, h, ih]

/-- C3 amended: a column whose value is the empty string is dropped from
the parsed field set (`parsed_cols` is unchanged if empty-valued entries
are removed first), but the raw field set passed to the template is the
row itself, retaining empty-string values. -/
theorem empty_values_dropped_from_parsed_only (row : Row) :
    parsed_cols row
      = parsed_cols (row.filter (fun kv => kv.2 ≠ "")) ∧
    (render_vars row).1 = row :=
  ⟨parsed_foldl_filter row [], rfl⟩

theorem table_fmt_positional :
    pyFormat TABLE_PATH_FMT [] = .error (.keyError "project_dir") := rfl

theorem refresh_dirs_files (fs : FS) (project_dir : String) :
    (refresh_dirs fs project_dir).1.files = fs.files := by
  unfold refresh_dirs mkdir
  by_cases h : project_dir ∈ fs.dirs
  · simp [h]
  · simp [h, table_fmt_positional]

theorem refresh_dirs_of_exists (fs : FS) (project_dir : String)
    (h : project_dir ∈ fs.dirs) :
    refresh_dirs fs project_dir = (fs, Option.none) := by
  unfold refresh_dirs mkdir
  simp [h]

/-- C8: with no remote configured (`config['gsheets_url']` empty, hence
falsy), `refresh_sources` issues no network request and leaves every
file's content unchanged — whatever the starting file system, project
directory and network behaviour. -/
theorem refresh_no_remote_frame (fs : FS) (project_dir : String)
    (config : Config) (net : String → Except String String)
    (h : config.gsheets_url = "") :
    (refresh_sources fs project_dir config net).2.2 = [] ∧
    (refresh_sources fs project_dir config net).1.files = fs.files := by
  unfold refresh_sources
  rcases hd : refresh_dirs fs project_dir with ⟨fs1, exc⟩
  have hfiles : fs1.files = fs.files := by
    have := refresh_dirs_files fs project_dir
    rw [hd] at this
    exact this
  cases exc with
  | none => simp [h, hfiles]
  | some e => simp [h, hfiles]

/-- C8 witness: a concrete no-remote refresh on a one-file file system
over a network that would fail every request. -/
theorem refresh_no_remote_frame_witness :
    (refresh_sources ⟨["p"], [("p/tables/t", "old")]⟩ "p"
        ⟨"", [⟨"s", "t"⟩]⟩ (fun _ => .error "refused")).2.2 = [] ∧
    (refresh_sources ⟨["p"], [("p/tables/t", "old")]⟩ "p"
        ⟨"", [⟨"s", "t"⟩]⟩ (fun _ => .error "refused")).1.files
      = [("p/tables/t", "old")] :=
  refresh_no_remote_frame ⟨["p"], [("p/tables/t", "old")]⟩ "p"
    ⟨"", [⟨"s", "t"⟩]⟩ (fun _ => .error "refused") rfl

theorem gsheets_fmt_ok (u s : String) :
    ∃ v, pyFormat GSHEETS_URL_FMT [("url", u), ("sheet", s)] = .ok v := by
  simp [pyFormat, GSHEETS_URL_FMT, pyFmt, List.lookup, Except.map]

theorem table_fmt_ok (pd t : String) :
    ∃ v, pyFormat TABLE_PATH_FMT [("project_dir", pd), ("table", t)]
      = .ok v := by
  simp [pyFormat, TABLE_PATH_FMT, pyFmt, List.lookup, Except.map]

theorem download_loop_attempts_all (net : String → Except String String)
    (project_dir gsheets_url : String) (mappings : List Mapping) (fs : FS) :
    (download_loop net project_dir gsheets_url fs mappings).2.1
        = Option.none ∧
    (download_loop net project_dir gsheets_url fs mappings).2.2.length
        = mappings.length := by
  induction mappings generalizing fs with
  | nil => exact ⟨rfl, rfl⟩
  | cons entry rest ih =>
    obtain ⟨url, hurl⟩ := gsheets_fmt_ok gsheets_url entry.sheet
    obtain ⟨output, hout⟩ := table_fmt_ok project_dir entry.table
    cases hnet : net url with
    | ok content =>
      simp [download_loop, hurl, hout, hnet, ih]
    | error e =>
      simp [download_loop, hurl, hout, hnet, ih]

/-- C4: once `refresh_sources` reaches its download loop (the project
directory already exists, so the broken mkdir block is caught, and a
remote is configured), every mapping's download is attempted no matter
how many downloads fail: the loop raises nothing and the number of
network requests equals the number of mappings, for every network
behaviour. -/
theorem refresh_attempts_every_mapping (fs : FS) (project_dir : String)
    (config : Config) (net : String → Except String String)
    (hdir : project_dir ∈ fs.dirs) (hurl : config.gsheets_url ≠ "") :
    (refresh_sources fs project_dir config net).2.1 = Option.none ∧
    (refresh_sources fs project_dir config net).2.2.length
      = config.mappings.length := by
  unfold refresh_sources
  rw [refresh_dirs_of_exists fs project_dir hdir]
  simp only [hurl, if_false]
  exact download_loop_attempts_all net project_dir config.gsheets_url
    config.mappings fs

/-- C4 witness: two mappings over a network that fails every request —
both downloads are still attempted and nothing is raised. -/
theorem refresh_attempts_every_mapping_witness :
    (refresh_sources ⟨["p"], []⟩ "p"
        ⟨"http://sheets", [⟨"s1", "t1"⟩, ⟨"s2", "t2"⟩]⟩
        (fun _ => .error "connection reset")).2.1 = Option.none ∧
    (refresh_sources ⟨["p"], []⟩ "p"
        ⟨"http://sheets", [⟨"s1", "t1"⟩, ⟨"s2", "t2"⟩]⟩
        (fun _ => .error "connection reset")).2.2.length = 2 :=
  refresh_attempts_every_mapping ⟨["p"], []⟩ "p"
    ⟨"http://sheets", [⟨"s1", "t1"⟩, ⟨"s2", "t2"⟩]⟩
    (fun _ => .error "connection reset")
    (by simp) (by simp)

theorem parsedStep_lookup_of_not (acc : List (String × Yaml))
    (kv : String × String) (n : String)
    (h : ¬(kv.2 ≠ "" ∧ pyEndsWith kv.1 YAML_TAG = true ∧
      stripYamlName kv.1 = n)) :
    alookup (parsedStep acc kv) n = alookup acc n := by
  unfold parsedStep
  by_cases h1 : kv.2 = ""
  · rw [if_pos h1]
  · rw [if_neg h1]
    by_cases h2 : pyEndsWith kv.1 YAML_TAG = true
    · rw [if_pos h2]
      have h3 : stripYamlName kv.1 ≠ n := fun he => h ⟨h1, h2, he⟩
      exact alookup_dictInsert_ne _ _ _ _ h3
    · rw [if_neg h2]

theorem parsed_foldl_lookup (n : String) (y : Yaml) :
    ∀ (row : Row) (acc : List (String × Yaml)),
      (∀ kv ∈ row, kv.2 ≠ "" → pyEndsWith kv.1 YAML_TAG = true →
        stripYamlName kv.1 = n → yaml_safe_load kv.2 = y) →
      ((∃ kv ∈ row, kv.2 ≠ "" ∧ pyEndsWith kv.1 YAML_TAG = true ∧
          stripYamlName kv.1 = n) ∨ alookup acc n = some y) →
      alookup (row.foldl parsedStep acc) n = some y := by
  intro row
  induction row with
  | nil =>
    intro acc _ hex
    rcases hex with ⟨kv, hm, _⟩ | hacc
    · cases hm
    · simpa using hacc
  | cons kv rest ih =>
    intro acc hall hex
    simp only [List.foldl_cons]
    by_cases hc : kv.2 ≠ "" ∧ pyEndsWith kv.1 YAML_TAG = true ∧
      stripYamlName kv.1 = n
    · have hy : yaml_safe_load kv.2 = y :=
        hall kv (List.mem_cons_self kv rest) hc.1 hc.2.1 hc.2.2
      have hstep : alookup (parsedStep acc kv) n = some y := by
        unfold parsedStep
        rw [if_neg hc.1, if_pos hc.2.1, hc.2.2, hy]
        exact alookup_dictInsert_self acc n y
      exact ih (parsedStep acc kv)
        (fun kv' hm' h1 h2 h3 => hall kv' (List.mem_cons_of_mem kv hm') h1 h2 h3)
        (Or.inr hstep)
    · have hstep := parsedStep_lookup_of_not acc kv n hc
      refine ih (parsedStep acc kv)
        (fun kv' hm' h1 h2 h3 =>
          hall kv' (List.mem_cons_of_mem kv hm') h1 h2 h3) ?_
      rcases hex with ⟨kv', hm', hc'⟩ | hacc
      · rcases List.mem_cons.mp hm' with he | hm''
        · exact absurd (he ▸ hc') hc
        · exact Or.inl ⟨kv', hm'', hc'⟩
      · exact Or.inr (hstep.trans hacc)

/-- C7: in any row whose headers are distinct (as `csv.DictReader`
produces) and in which `Foo(yaml)`, holding the non-empty value `a: 1`,
is the only column contributing the parsed name `Foo`, the parsed field
set maps `Foo` to the structured mapping `a ↦ 1` — the reserved suffix
is stripped and the string re-parsed — while the raw field set still
holds the original string under the original header. -/
theorem parsed_yaml_column (row : Row)
    (hnodup : (row.map Prod.fst).Nodup)
    (hmem : ("Foo(yaml)", "a: 1") ∈ row)
    (huniq : ∀ kv ∈ row, kv.2 ≠ "" → pyEndsWith kv.1 YAML_TAG = true →
      stripYamlName kv.1 = "Foo" → kv = ("Foo(yaml)", "a: 1")) :
    alookup (parsed_cols row) "Foo" = some (.map [("a", .int 1)]) ∧
    alookup row "Foo(yaml)" = some "a: 1" := by
  constructor
  · apply parsed_foldl_lookup "Foo" (.map [("a", .int 1)]) row []
    · intro kv hm h1 h2 h3
      rw [huniq kv hm h1 h2 h3]
      decide
    · exact Or.inl ⟨("Foo(yaml)", "a: 1"), hmem, by decide, by decide, by decide⟩
  · exact alookup_of_nodup_mem row "Foo(yaml)" "a: 1" hnodup hmem

/-- C7 witness: a concrete row with a `Number` column and the tagged
`Foo(yaml)` column. -/
theorem parsed_yaml_column_witness :
    alookup (parsed_cols [("Number", "1"), ("Foo(yaml)", "a: 1")]) "Foo"
      = some (.map [("a", .int 1)]) ∧
    alookup ([("Number", "1"), ("Foo(yaml)", "a: 1")] : Row) "Foo(yaml)"
      = some "a: 1" :=
  parsed_yaml_column [("Number", "1"), ("Foo(yaml)", "a: 1")]
    (by decide) (by decide) (by decide)

end Render
